import Mathlib

/-!
Shallow embedding of the CBOR playground front-end (`src/lib.rs`).

The program is a single-page application: a parse-mode radio group
(`auto` / `hex` / `diag`), an input textarea, two output surfaces
(`hex`, `diag`), a submit button, a save button producing a permalink,
a dark-theme toggle, and persistence to browser local storage and the
page URL.  The CBOR codec (`cbor_diag`), the DOM host, and the JSON
serializer (`serde_json`) are external collaborators; they are modelled
here respectively as an abstract `Codec` structure, explicit fields of
`AppState`, and a concrete JSON encoder/decoder for the three stored
value shapes (mode strings, strings, booleans).
-/

deriving instance DecidableEq for Except

namespace CborPlay

/-- The three parse modes of `enum ParseType` in `src/lib.rs`
(`Auto`, `Hex`, `Diag`). -/
inductive ParseType where
  | auto
  | hex
  | diag
deriving DecidableEq, Repr

/-- `strum(serialize_all = "snake_case")` / `serde(rename_all = "snake_case")`:
the serialized names of the three variants, used by `Display` (permalink)
and by `Serialize` (local store). -/
def serializeMode : ParseType → String
  | .auto => "auto"
  | .hex => "hex"
  | .diag => "diag"

/-- `str::parse::<ParseType>` via the derived `strum::EnumString` with
snake-case serialization: an exact match on one of the three serialized
names, anything else fails. -/
def modeFromString (s : String) : Option ParseType :=
  if s = "auto" then some ParseType.auto
  else if s = "hex" then some ParseType.hex
  else if s = "diag" then some ParseType.diag
  else none

/-! ### JSON model (serde_json restricted to the stored value shapes)

`store` writes `serde_json::to_string(value)` and `load::<T>` reads back
with `serde_json::from_str`; the values are of type `ParseType`, `String`
or `bool` (§6.3 of the spec).  The encoder below follows serde_json's
string escaping: `"` and `\` are escaped, the five short control escapes
are used for 0x08/0x09/0x0A/0x0C/0x0D, remaining control characters
become `\u00XX` with lowercase hex, and every other character is emitted
verbatim.  The decoder models serde_json's string parser on this
fragment (escape sequences, `\uXXXX` for non-surrogate code points). -/

/-- Lowercase hex digit for a value `n < 16` (serde_json's digit table). -/
def hexDigitChar (n : Nat) : Char :=
  if n < 10 then Char.ofNat (48 + n) else Char.ofNat (87 + n)

/-- Value of a hex digit character, if it is one. -/
def hexVal (c : Char) : Option Nat :=
  if 48 ≤ c.toNat ∧ c.toNat ≤ 57 then some (c.toNat - 48)
  else if 97 ≤ c.toNat ∧ c.toNat ≤ 102 then some (c.toNat - 87)
  else if 65 ≤ c.toNat ∧ c.toNat ≤ 70 then some (c.toNat - 55)
  else none

/-- serde_json's escaping of one character inside a JSON string. -/
def escapeChar (c : Char) : List Char :=
  if c = '"' then ['\\', '"']
  else if c = '\\' then ['\\', '\\']
  else if c.toNat = 8 then ['\\', 'b']
  else if c.toNat = 9 then ['\\', 't']
  else if c.toNat = 10 then ['\\', 'n']
  else if c.toNat = 12 then ['\\', 'f']
  else if c.toNat = 13 then ['\\', 'r']
  else if c.toNat < 32 then
    ['\\', 'u', '0', '0', hexDigitChar (c.toNat / 16), hexDigitChar (c.toNat % 16)]
  else [c]

/-- Escape a whole character sequence. -/
def encodeStringChars : List Char → List Char
  | [] => []
  | c :: rest => escapeChar c ++ encodeStringChars rest

/-- `serde_json::to_string` of a Rust `String`: a quoted, escaped JSON
string literal. -/
def encodeJsonString (s : String) : String :=
  String.mk ('"' :: (encodeStringChars s.data ++ ['"']))

/-- The scalar value of four hex digits, if all four are hex digits. -/
def hexQuad (h1 h2 h3 h4 : Char) : Option Nat :=
  (hexVal h1).bind fun a =>
    (hexVal h2).bind fun b =>
      (hexVal h3).bind fun k =>
        (hexVal h4).map fun d => ((a * 16 + b) * 16 + k) * 16 + d

/-- JSON string-body parser: consumes characters up to the closing quote,
resolving escape sequences, and returns the decoded content together
with the remaining characters after the closing quote.  `\uXXXX` is
accepted for scalar values outside the surrogate range (serde_json
additionally resolves surrogate pairs, which the encoder above never
emits). -/
def decodeStringChars : List Char → Option (List Char × List Char)
  | [] => none
  | c :: rest =>
    if c = '"' then some ([], rest)
    else if c = '\\' then
      match rest with
      | [] => none
      | e :: rest2 =>
        if e = '"' then (decodeStringChars rest2).map (fun p => ('"' :: p.1, p.2))
        else if e = '\\' then (decodeStringChars rest2).map (fun p => ('\\' :: p.1, p.2))
        else if e = '/' then (decodeStringChars rest2).map (fun p => ('/' :: p.1, p.2))
        else if e = 'b' then (decodeStringChars rest2).map (fun p => (Char.ofNat 8 :: p.1, p.2))
        else if e = 't' then (decodeStringChars rest2).map (fun p => (Char.ofNat 9 :: p.1, p.2))
        else if e = 'n' then (decodeStringChars rest2).map (fun p => (Char.ofNat 10 :: p.1, p.2))
        else if e = 'f' then (decodeStringChars rest2).map (fun p => (Char.ofNat 12 :: p.1, p.2))
        else if e = 'r' then (decodeStringChars rest2).map (fun p => (Char.ofNat 13 :: p.1, p.2))
        else if e = 'u' then
          match rest2 with
          | h1 :: h2 :: h3 :: h4 :: rest3 =>
            let n := (hexQuad h1 h2 h3 h4).getD 55296
            if n < 55296 ∨ 57344 ≤ n then
              (decodeStringChars rest3).map (fun p => (Char.ofNat n :: p.1, p.2))
            else none
          | _ => none
        else none
    else (decodeStringChars rest).map (fun p => (c :: p.1, p.2))

/-- `serde_json::from_str::<String>`: a full JSON text that is exactly one
string literal. -/
def fromJsonString (s : String) : Option String :=
  match s.data with
  | '"' :: rest =>
    match decodeStringChars rest with
    | some (cs, []) => some (String.mk cs)
    | _ => none
  | _ => none

/-- `serde_json::to_string` of a `bool`. -/
def encodeBoolJson (b : Bool) : String :=
  if b then "true" else "false"

/-- `serde_json::from_str::<bool>`. -/
def decodeBoolJson (s : String) : Option Bool :=
  if s = "true" then some true
  else if s = "false" then some false
  else none

/-- `serde_json::to_string` of a `ParseType`: the snake-case variant name
as a JSON string. -/
def encodeModeJson (m : ParseType) : String :=
  encodeJsonString (serializeMode m)

/-- `serde_json::from_str::<ParseType>`: a JSON string literal whose
content is one of the three snake-case variant names. -/
def decodeModeJson (s : String) : Option ParseType :=
  (fromJsonString s).bind modeFromString

/-! ### The codec (external collaborator `cbor_diag`)

`cbor_diag::parse_hex` / `parse_diag` return a decoded value or an error;
the playground only ever renders the error via `Display`, so errors are
modelled as their displayed strings.  Results are deterministic given the
input (they are plain functions). -/

/-- Abstract CBOR codec over a type `CV` of decoded CBOR values: the two
decoders and the two emitters of `cbor_diag` used by `parse` in
`src/lib.rs`. -/
structure Codec (CV : Type) where
  parse_hex : String → Except String CV
  parse_diag : String → Except String CV
  to_hex : CV → String
  to_diag_pretty : CV → String

/-- `fn parse(ty: ParseType, value: &str) -> Result<(String, String)>`:
dispatch on the mode; `Auto` is `parse_hex(value).or_else(|_| parse_diag(value))`,
and the successful value is mapped to `(to_hex, to_diag_pretty)`. -/
def parse {CV : Type} (c : Codec CV) (ty : ParseType) (value : String) : Except String (String × String) :=
  match ty with
  | .auto =>
    (match c.parse_hex value with
     | .ok v => Except.ok v
     | .error _ => c.parse_diag value).map (fun v => (c.to_hex v, c.to_diag_pretty v))
  | .hex =>
    (c.parse_hex value).map (fun v => (c.to_hex v, c.to_diag_pretty v))
  | .diag =>
    (c.parse_diag value).map (fun v => (c.to_hex v, c.to_diag_pretty v))

/-! ### The DOM / persistence state and the event handlers

The DOM surfaces and the local store, as observed and mutated by the
handlers in `src/lib.rs`.  Output surfaces carry `Option String` because
`set_text_content` takes `Option<&str>` (`None` clears the surface).
Local storage is a key-value map, modelled as an association list where
a write prepends and a read takes the first match attempt. -/

/-- The page location: the part before the query, and the decoded query
pairs (the `url` crate's `Url` restricted to what the program uses). -/
structure Location where
  base : String
  query : List (String × String)
deriving DecidableEq, Repr

/-- First-match lookup in the association-list store. -/
def storeGet : List (String × String) → String → Option String
  | [], _ => none
  | (k, v) :: rest, key => if k = key then some v else storeGet rest key

/-- Overwriting write to the association-list store. -/
def storeSet (st : List (String × String)) (key val : String) : List (String × String) :=
  (key, val) :: st

/-- The observable page state: textarea value, the three radio checked
flags, the two output surfaces, local storage, the body's `dark` class,
and the permalink anchor's `href` and text. -/
structure AppState where
  loc : Location
  input : String
  autoChecked : Bool
  hexChecked : Bool
  diagChecked : Bool
  hexOut : Option String
  diagOut : Option String
  localStore : List (String × String)
  bodyDark : Bool
  savedHref : Option Location
  savedText : String
deriving DecidableEq, Repr

/-- `fn get_type() -> ParseType`: priority scan of the checked flags,
falling back to `Auto` when none is checked. -/
def get_type (s : AppState) : ParseType :=
  if s.autoChecked then ParseType.auto
  else if s.hexChecked then ParseType.hex
  else if s.diagChecked then ParseType.diag
  else ParseType.auto

/-- `fn switch_type(ty: ParseType)`: `set_checked(true)` on the selected
radio; the radios share `name="type"`, so the host's radio-group
semantics clears the other two. -/
def switch_type (ty : ParseType) (s : AppState) : AppState :=
  match ty with
  | .auto => { s with autoChecked := true, hexChecked := false, diagChecked := false }
  | .hex => { s with autoChecked := false, hexChecked := true, diagChecked := false }
  | .diag => { s with autoChecked := false, hexChecked := false, diagChecked := true }

/-- `load::<ParseType>(setting)`. -/
def loadMode (st : List (String × String)) (key : String) : Option ParseType :=
  (storeGet st key).bind decodeModeJson

/-- `load::<String>(setting)`. -/
def loadString (st : List (String × String)) (key : String) : Option String :=
  (storeGet st key).bind fromJsonString

/-- `load::<bool>(setting)`. -/
def loadBool (st : List (String × String)) (key : String) : Option Bool :=
  (storeGet st key).bind decodeBoolJson

/-- `fn try_process() -> Result<()>`: parse the current input under the
current mode; on failure return the error having touched nothing; on
success write both output surfaces, then `store("type", ...)` and
`store("value", ...)`. -/
def try_process {CV : Type} (c : Codec CV) (s : AppState) : Except String AppState :=
  match parse c (get_type s) s.input with
  | .error e => Except.error e
  | .ok (hex, diag) =>
    Except.ok { s with
      hexOut := some hex
      diagOut := some diag
      localStore :=
        storeSet (storeSet s.localStore "type" (encodeModeJson (get_type s)))
          "value" (encodeJsonString s.input) }

/-- `fn process()`: `try_process()`, and on failure write the displayed
error into the hex surface, clear the diag surface, and perform the same
two stores. -/
def process {CV : Type} (c : Codec CV) (s : AppState) : AppState :=
  match try_process c s with
  | .ok s' => s'
  | .error e =>
    { s with
      hexOut := some e
      diagOut := none
      localStore :=
        storeSet (storeSet s.localStore "type" (encodeModeJson (get_type s)))
          "value" (encodeJsonString s.input) }

/-- The user events the page can deliver.  `radioClick` is a user
selecting one of the mode radios: the host updates the radio group's
checked state, and `init_listeners` registers no `change` listener, so
no handler runs. -/
inductive Event where
  | submitClick
  | inputKeydown (keyCode : Nat) (metaKey ctrlKey : Bool)
  | inputKeyup
  | saveClick
  | darkClick
  | radioClick (ty : ParseType)
deriving DecidableEq, Repr

/-- The `on_save` closure: rebuild the location's query as
`[("type", ty.to_string()), ("value", input)]` in that order and point
the permalink anchor at it with the fixed label. -/
def on_save (s : AppState) : AppState :=
  let ty := get_type s
  { s with
    savedHref := some { base := s.loc.base, query := [("type", serializeMode ty), ("value", s.input)] }
    savedText := "Permalink to the playground" }

/-- The `on_dark_click` closure: `class_list().toggle("dark")` returns the
new presence of the class, which is stored under `"dark"`. -/
def on_dark_click (s : AppState) : AppState :=
  let d := !s.bodyDark
  { s with bodyDark := d, localStore := storeSet s.localStore "dark" (encodeBoolJson d) }

/-- The bootstrap theme force in `init_listeners`:
`toggle_with_force("dark", load("dark").unwrap_or(false))`. -/
def bootstrapDark (s : AppState) : AppState :=
  { s with bodyDark := (loadBool s.localStore "dark").getD false }

/-- One event delivered to the page, with the handlers wired by
`init_listeners`: submit click and Ctrl/Meta-Enter keydown run
`process`, keyup runs `try_process().ok()` (errors discarded, state
kept), save and dark run their closures, and a radio click only flips
the radio group (no listener is registered on the radios). -/
def step {CV : Type} (c : Codec CV) (s : AppState) : Event → AppState
  | .submitClick => process c s
  | .inputKeydown keyCode metaKey ctrlKey =>
    if keyCode == 13 && (metaKey || ctrlKey) then process c s else s
  | .inputKeyup =>
    match try_process c s with
    | .ok s' => s'
    | .error _ => s
  | .saveClick => on_save s
  | .darkClick => on_dark_click s
  | .radioClick ty => switch_type ty s

/-- Last-occurrence-wins lookup of a query parameter: `url.query_pairs()`
is collected into a `HashMap`, so a repeated key keeps the last pair. -/
def lookupLast : List (String × String) → String → Option String
  | [], _ => none
  | (k, v) :: rest, key =>
    match lookupLast rest key with
    | some v' => some v'
    | none => if k = key then some v else none

/-- The URL half of the bootstrap resolution:
`params.get("type").and_then(|ty| ty.parse().ok()).and_then(|ty| params.get("value").map(...))`. -/
def urlPair (q : List (String × String)) : Option (ParseType × String) :=
  ((lookupLast q "type").bind modeFromString).bind
    (fun ty => (lookupLast q "value").map (fun v => (ty, v)))

/-- The local-store half of the bootstrap resolution:
`load("type").and_then(|ty| load("value").map(...))`. -/
def storePair (st : List (String × String)) : Option (ParseType × String) :=
  (loadMode st "type").bind (fun ty => (loadString st "value").map (fun v => (ty, v)))

/-- `fn load_values()`: resolve `(ty, value)` as URL pair, else stored
pair, else the seed `(Hex, "bf6346756ef563416d7421ff")`; then
`switch_type(ty)`, write `value` into the input, and `process()`. -/
def load_values {CV : Type} (c : Codec CV) (s : AppState) : AppState :=
  let resolved :=
    ((urlPair s.loc.query).orElse (fun _ => storePair s.localStore)).getD
      (ParseType.hex, "bf6346756ef563416d7421ff")
  process c { switch_type resolved.1 s with input := resolved.2 }

/-- `pub fn main()`: `init_listeners()` (whose only immediate state
effect is the dark-class force) followed by `load_values()`. -/
def pageMain {CV : Type} (c : Codec CV) (s : AppState) : AppState :=
  load_values c (bootstrapDark s)

/-- Which events run `process` (commit parse): the submit click, and a
keydown with `key_code() == 13` and Meta or Ctrl held. -/
def commitEvent : Event → Bool
  | .submitClick => true
  | .inputKeydown keyCode metaKey ctrlKey => keyCode == 13 && (metaKey || ctrlKey)
  | _ => false

/-! ### Concrete codec and states, used to instantiate the theorems -/

/-- A small concrete codec standing in for `cbor_diag` when a theorem is
instantiated: exactly one hex spelling `"00"` and one diagnostic
spelling `"0"` decode, to a single value. -/
def demoCodec : Codec Nat where
  parse_hex := fun s => if s = "00" then Except.ok 0 else Except.error ("hex error at " ++ s)
  parse_diag := fun s => if s = "0" then Except.ok 0 else Except.error ("diag error at " ++ s)
  to_hex := fun _ => "00"
  to_diag_pretty := fun _ => "0"

/-- A page location with no query parameters. -/
def plainLoc : Location :=
  { base := "https://cbor.nemo157.com/", query := [] }

/-- A page in Auto mode whose input `"zz"` fails both decoders of
`demoCodec`, with earlier successful output still visible. -/
def failState : AppState :=
  { loc := plainLoc, input := "zz", autoChecked := true, hexChecked := false,
    diagChecked := false, hexOut := some "00", diagOut := some "0", localStore := [],
    bodyDark := false, savedHref := none, savedText := "" }

/-- A page in Hex mode whose input `"0"` fails the hex decoder but
succeeds under Diag, with empty outputs and store. -/
def radioState : AppState :=
  { loc := plainLoc, input := "0", autoChecked := false, hexChecked := true,
    diagChecked := false, hexOut := none, diagOut := none, localStore := [],
    bodyDark := false, savedHref := none, savedText := "" }

/-- `failState` with URL query parameters `type=diag&value=0`. -/
def urlState : AppState :=
  { failState with loc := { base := plainLoc.base, query := [("type", "diag"), ("value", "0")] } }

/-- `failState` with persisted `type`/`value` entries and no query. -/
def storedState : AppState :=
  { failState with
    localStore := [("type", encodeModeJson ParseType.hex), ("value", encodeJsonString "00")] }

/-! ### Helper lemmas for the JSON string round trip -/

theorem hexVal_hexDigitChar : ∀ n, n < 16 → hexVal (hexDigitChar n) = some n := by
  intro n h
  interval_cases n <;> rfl

theorem ofNat_of_toNat_eq {c : Char} {n : Nat} (h : c.toNat = n) : Char.ofNat n = c := by
  rw [← h, Char.ofNat_toNat]

theorem decode_escapeChar (c : Char) (rest : List Char) :
    decodeStringChars (escapeChar c ++ rest)
      = (decodeStringChars rest).map (fun p => (c :: p.1, p.2)) := by
  unfold escapeChar
  split_ifs with hq hs h8 h9 h10 h12 h13 hlt
  · subst hq
    show decodeStringChars ('\\' :: '"' :: rest) = _
    rw [decodeStringChars.eq_def]
    simp only [Char.reduceEq, reduceIte]
  · subst hs
    show decodeStringChars ('\\' :: '\\' :: rest) = _
    rw [decodeStringChars.eq_def]
    simp only [Char.reduceEq, reduceIte]
  · show decodeStringChars ('\\' :: 'b' :: rest) = _
    rw [decodeStringChars.eq_def]
    simp only [Char.reduceEq, reduceIte, ofNat_of_toNat_eq h8]
  · show decodeStringChars ('\\' :: 't' :: rest) = _
    rw [decodeStringChars.eq_def]
    simp only [Char.reduceEq, reduceIte, ofNat_of_toNat_eq h9]
  · show decodeStringChars ('\\' :: 'n' :: rest) = _
    rw [decodeStringChars.eq_def]
    simp only [Char.reduceEq, reduceIte, ofNat_of_toNat_eq h10]
  · show decodeStringChars ('\\' :: 'f' :: rest) = _
    rw [decodeStringChars.eq_def]
    simp only [Char.reduceEq, reduceIte, ofNat_of_toNat_eq h12]
  · show decodeStringChars ('\\' :: 'r' :: rest) = _
    rw [decodeStringChars.eq_def]
    simp only [Char.reduceEq, reduceIte, ofNat_of_toNat_eq h13]
  · show decodeStringChars
        ('\\' :: 'u' :: '0' :: '0' :: hexDigitChar (c.toNat / 16)
          :: hexDigitChar (c.toNat % 16) :: rest) = _
    have hv1 : hexVal (hexDigitChar (c.toNat / 16)) = some (c.toNat / 16) :=
      hexVal_hexDigitChar _ (by omega)
    have hv2 : hexVal (hexDigitChar (c.toNat % 16)) = some (c.toNat % 16) :=
      hexVal_hexDigitChar _ (by omega)
    have hquad : hexQuad '0' '0' (hexDigitChar (c.toNat / 16)) (hexDigitChar (c.toNat % 16))
        = some c.toNat := by
      rw [hexQuad, show hexVal '0' = some 0 from rfl, hv1, hv2]
      simp only [Option.some_bind, Option.map_some', Option.some.injEq]
      omega
    rw [decodeStringChars.eq_def]
    simp only [Char.reduceEq, reduceIte, hquad, Option.getD_some]
    rw [if_pos (Or.inl (by omega)), Char.ofNat_toNat]
  · show decodeStringChars (c :: rest) = _
    rw [decodeStringChars.eq_def]
    simp only [if_neg hq, if_neg hs]

theorem decode_encode_quote (l : List Char) :
    decodeStringChars (encodeStringChars l ++ ['"']) = some (l, []) := by
  induction l with
  | nil =>
    show decodeStringChars ('"' :: []) = some ([], [])
    rw [decodeStringChars.eq_def]
    simp
  | cons c cs ih =>
    show decodeStringChars ((escapeChar c ++ encodeStringChars cs) ++ ['"']) = _
    rw [List.append_assoc, decode_escapeChar, ih]
    rfl

theorem fromJson_encodeJson (s : String) :
    fromJsonString (encodeJsonString s) = some s := by
  show (match decodeStringChars (encodeStringChars s.data ++ ['"']) with
    | some (cs, []) => some (String.mk cs)
    | _ => none) = some s
  rw [decode_encode_quote]

/-! ### Claim theorems -/

/-- C3: `parse(Auto, x)` returns the hex decode's canonical pair when the
hex decode succeeds; when the hex decode fails it returns the diagnostic
decode's result, so on a double failure the error surfaced is the
diagnostic parser's, not the hex parser's. -/
theorem parse_auto_order {CV : Type} (c : Codec CV) (x : String) :
    (∀ v, c.parse_hex x = Except.ok v →
      parse c ParseType.auto x = Except.ok (c.to_hex v, c.to_diag_pretty v)) ∧
    (∀ e, c.parse_hex x = Except.error e →
      parse c ParseType.auto x
        = (c.parse_diag x).map (fun v => (c.to_hex v, c.to_diag_pretty v))) ∧
    (∀ e e2, c.parse_hex x = Except.error e → c.parse_diag x = Except.error e2 →
      parse c ParseType.auto x = Except.error e2) := by
  refine ⟨?_, ?_, ?_⟩
  · intro v hv
    simp [parse, hv, Except.map]
  · intro e he
    simp [parse, he]
  · intro e e2 he hd
    simp [parse, he, hd, Except.map]

/-- C3 witness: the three clauses at concrete inputs of the demo codec. -/
theorem parse_auto_order_witness :
    parse demoCodec ParseType.auto "00" = Except.ok ("00", "0") ∧
    parse demoCodec ParseType.auto "0"
      = (demoCodec.parse_diag "0").map (fun v => (demoCodec.to_hex v, demoCodec.to_diag_pretty v)) ∧
    parse demoCodec ParseType.auto "zz" = Except.error "diag error at zz" :=
  ⟨(parse_auto_order demoCodec "00").1 0 (by decide),
   (parse_auto_order demoCodec "0").2.1 "hex error at 0" (by decide),
   (parse_auto_order demoCodec "zz").2.2 "hex error at zz" "diag error at zz"
     (by decide) (by decide)⟩

/-- C6: `parse(Auto, x)` succeeds exactly when `parse(Hex, x)` or
`parse(Diag, x)` succeeds. -/
theorem parse_auto_ok_iff {CV : Type} (c : Codec CV) (x : String) :
    (parse c ParseType.auto x).isOk
      = ((parse c ParseType.hex x).isOk || (parse c ParseType.diag x).isOk) := by
  cases hh : c.parse_hex x <;> cases hd : c.parse_diag x <;>
    simp [parse, hh, hd, Except.map, Except.isOk, Except.toBool]

/-- C2: a keyup whose parse fails leaves the whole state — output
surfaces and local store included — unchanged. -/
theorem keyup_failure_silent {CV : Type} (c : Codec CV) (s : AppState) (e : String)
    (h : parse c (get_type s) s.input = Except.error e) :
    step c s Event.inputKeyup = s := by
  simp [step, try_process, h]

/-- C2 witness: the failing keyup at a concrete state of the demo codec. -/
theorem keyup_failure_silent_witness :
    parse demoCodec (get_type failState) failState.input = Except.error "diag error at zz" ∧
    step demoCodec failState Event.inputKeyup = failState :=
  ⟨by decide, keyup_failure_silent demoCodec failState "diag error at zz" (by decide)⟩

/-- C7: a Save click points the permalink anchor at the current location
with its query replaced by `type` (snake-case mode) then `value` (raw
input), sets the fixed label, and the mode serialization round-trips
through the bootstrap deserializer. -/
theorem save_click_permalink {CV : Type} (c : Codec CV) (s : AppState) :
    (step c s Event.saveClick).savedHref
      = some { base := s.loc.base,
               query := [("type", serializeMode (get_type s)), ("value", s.input)] } ∧
    (step c s Event.saveClick).savedText = "Permalink to the playground" ∧
    (∀ m, modeFromString (serializeMode m) = some m) := by
  refine ⟨rfl, rfl, ?_⟩
  intro m
  cases m <;> decide

/-- C5 counterexample: with input `"0"` in Hex mode, selecting the Diag
radio would — were a commit parse performed — succeed and write outputs
and persistence; the delivered event leaves the outputs empty and the
store empty, so no commit parse runs on a radio change. -/
theorem radio_change_commits_counterexample :
    parse demoCodec ParseType.diag radioState.input = Except.ok ("00", "0") ∧
    (step demoCodec radioState (Event.radioClick ParseType.diag)).hexOut = none ∧
    (step demoCodec radioState (Event.radioClick ParseType.diag)).diagOut = none ∧
    (step demoCodec radioState (Event.radioClick ParseType.diag)).localStore = [] := by
  refine ⟨by decide, ?_, ?_, ?_⟩ <;> rfl

/-- C5 amended: no listener is registered on the mode radios, so a radio
change event only updates the radio group's checked state; the output
surfaces and the store are untouched, and the newly selected mode is
what `get_type` returns for later parses. -/
theorem radio_change_updates_mode_only {CV : Type} (c : Codec CV) (s : AppState) (ty : ParseType) :
    step c s (Event.radioClick ty) = switch_type ty s ∧
    (step c s (Event.radioClick ty)).input = s.input ∧
    (step c s (Event.radioClick ty)).hexOut = s.hexOut ∧
    (step c s (Event.radioClick ty)).diagOut = s.diagOut ∧
    (step c s (Event.radioClick ty)).localStore = s.localStore ∧
    get_type (step c s (Event.radioClick ty)) = ty := by
  refine ⟨rfl, ?_, ?_, ?_, ?_, ?_⟩ <;> cases ty <;> simp [step, switch_type, get_type]

/-- C1: every commit-parse event (submit click, Ctrl/Meta-Enter keydown)
writes a failing parse's message into the hex surface and clears the
diag surface, and — success or failure — persists `"type"` as the
current mode and `"value"` as the current input. -/
theorem commit_event_writes {CV : Type} (c : Codec CV) (s : AppState) (ev : Event)
    (hev : commitEvent ev = true) :
    (∀ e, parse c (get_type s) s.input = Except.error e →
      (step c s ev).hexOut = some e ∧ (step c s ev).diagOut = none) ∧
    storeGet (step c s ev).localStore "type" = some (encodeModeJson (get_type s)) ∧
    storeGet (step c s ev).localStore "value" = some (encodeJsonString s.input) := by
  have hstep : step c s ev = process c s := by
    cases ev with
    | submitClick => rfl
    | inputKeydown k m t =>
      have hb : (k == 13 && (m || t)) = true := hev
      simp [step, hb]
    | inputKeyup => simp [commitEvent] at hev
    | saveClick => simp [commitEvent] at hev
    | darkClick => simp [commitEvent] at hev
    | radioClick ty => simp [commitEvent] at hev
  have hstore : (process c s).localStore
      = ("value", encodeJsonString s.input)
        :: ("type", encodeModeJson (get_type s)) :: s.localStore := by
    cases hp : parse c (get_type s) s.input <;>
      simp [process, try_process, hp, storeSet]
  rw [hstep]
  refine ⟨?_, ?_, ?_⟩
  · intro e he
    simp [process, try_process, he]
  · rw [hstore, storeGet, if_neg (by decide), storeGet, if_pos rfl]
  · rw [hstore, storeGet, if_pos rfl]

/-- C1 witness: a failing submit click on the demo codec at `failState`. -/
theorem commit_event_writes_witness :
    (step demoCodec failState Event.submitClick).hexOut = some "diag error at zz" ∧
    (step demoCodec failState Event.submitClick).diagOut = none ∧
    storeGet (step demoCodec failState Event.submitClick).localStore "type"
      = some (encodeModeJson (get_type failState)) ∧
    storeGet (step demoCodec failState Event.submitClick).localStore "value"
      = some (encodeJsonString failState.input) := by
  have h := commit_event_writes demoCodec failState Event.submitClick rfl
  have h1 := h.1 "diag error at zz" (by decide)
  exact ⟨h1.1, h1.2, h.2.1, h.2.2⟩

/-- C4: bootstrap resolves `(mode, value)` from the URL exactly when the
`type` parameter deserializes and `value` is present, else from the
local store when both `type` and `value` load, else from the seed pair;
the resolved mode is applied to the radio group, the value written into
the input, and a commit parse runs. -/
theorem bootstrap_precedence {CV : Type} (c : Codec CV) (s : AppState) :
    (∀ ty v, urlPair s.loc.query = some (ty, v) →
      load_values c s = process c { switch_type ty s with input := v }) ∧
    (urlPair s.loc.query = none → ∀ ty v, storePair s.localStore = some (ty, v) →
      load_values c s = process c { switch_type ty s with input := v }) ∧
    (urlPair s.loc.query = none → storePair s.localStore = none →
      load_values c s
        = process c { switch_type ParseType.hex s with input := "bf6346756ef563416d7421ff" }) ∧
    (∀ ty v, urlPair s.loc.query = some (ty, v) ↔
      ((lookupLast s.loc.query "type").bind modeFromString = some ty ∧
        lookupLast s.loc.query "value" = some v)) := by
  refine ⟨?_, ?_, ?_, ?_⟩
  · intro ty v h
    simp [load_values, h, Option.orElse]
  · intro hu ty v hst
    simp [load_values, hu, hst, Option.orElse]
  · intro hu hst
    simp [load_values, hu, hst, Option.orElse]
  · intro ty v
    unfold urlPair
    cases ht : (lookupLast s.loc.query "type").bind modeFromString <;>
      cases hv : lookupLast s.loc.query "value" <;> simp

/-- C4 witness: the three precedence levels at concrete states. -/
theorem bootstrap_precedence_witness :
    load_values demoCodec urlState
      = process demoCodec { switch_type ParseType.diag urlState with input := "0" } ∧
    load_values demoCodec storedState
      = process demoCodec { switch_type ParseType.hex storedState with input := "00" } ∧
    load_values demoCodec failState
      = process demoCodec
          { switch_type ParseType.hex failState with input := "bf6346756ef563416d7421ff" } :=
  ⟨(bootstrap_precedence demoCodec urlState).1 ParseType.diag "0" (by decide),
   (bootstrap_precedence demoCodec storedState).2.1 (by decide) ParseType.hex "00" (by decide),
   (bootstrap_precedence demoCodec failState).2.2.1 (by decide) (by decide)⟩

/-- C8: a parse-mode string deserializes to a mode only when it is one of
`auto`, `hex`, `diag` — from the URL (`modeFromString`) and from the
local store (`decodeModeJson`, whose accepted payloads contain exactly a
serialized mode name) — and no unknown string deserializes to `Auto`. -/
theorem mode_string_strict :
    (∀ s : String, s ≠ "auto" → s ≠ "hex" → s ≠ "diag" → modeFromString s = none) ∧
    (∀ p m, decodeModeJson p = some m → fromJsonString p = some (serializeMode m)) ∧
    (∀ s : String, modeFromString s = some ParseType.auto → s = "auto") := by
  refine ⟨?_, ?_, ?_⟩
  · intro s h1 h2 h3
    simp [modeFromString, h1, h2, h3]
  · intro p m h
    unfold decodeModeJson at h
    cases hf : fromJsonString p with
    | none => rw [hf] at h; cases h
    | some str =>
      rw [hf] at h
      simp only [Option.some_bind] at h
      unfold modeFromString at h
      split_ifs at h with h1 h2 h3
      · injection h with hm; subst hm; rw [h1]; rfl
      · injection h with hm; subst hm; rw [h2]; rfl
      · injection h with hm; subst hm; rw [h3]; rfl
  · intro s h
    unfold modeFromString at h
    split_ifs at h with h1 h2 h3
    · exact h1
    · simp at h
    · simp at h

/-- C8 witness: an unknown string and a stored payload, concretely. -/
theorem mode_string_strict_witness :
    modeFromString "Auto" = none ∧
    fromJsonString "\"hex\"" = some (serializeMode ParseType.hex) :=
  ⟨mode_string_strict.1 "Auto" (by decide) (by decide) (by decide),
   mode_string_strict.2.1 "\"hex\"" ParseType.hex (by decide)⟩

/-- C9: bootstrap forces the body's `dark` class to the persisted boolean
(default `false` when the key is absent or malformed); a dark-button
click toggles the class and persists the post-toggle boolean, so class
and persisted value agree afterwards. -/
theorem dark_invariant {CV : Type} (c : Codec CV) (s : AppState) :
    (bootstrapDark s).bodyDark = (loadBool s.localStore "dark").getD false ∧
    (storeGet s.localStore "dark" = none → (bootstrapDark s).bodyDark = false) ∧
    (step c s Event.darkClick).bodyDark = !s.bodyDark ∧
    storeGet (step c s Event.darkClick).localStore "dark"
      = some (encodeBoolJson (step c s Event.darkClick).bodyDark) ∧
    loadBool (step c s Event.darkClick).localStore "dark"
      = some (step c s Event.darkClick).bodyDark := by
  refine ⟨rfl, ?_, rfl, ?_, ?_⟩
  · intro h
    simp [bootstrapDark, loadBool, h]
  · show storeGet (("dark", encodeBoolJson (!s.bodyDark)) :: s.localStore) "dark"
        = some (encodeBoolJson (!s.bodyDark))
    rw [storeGet, if_pos rfl]
  · show loadBool (("dark", encodeBoolJson (!s.bodyDark)) :: s.localStore) "dark"
        = some (!s.bodyDark)
    unfold loadBool
    rw [storeGet, if_pos rfl]
    cases s.bodyDark <;> decide

/-- C9 witness: bootstrap with no persisted `dark` key yields `false`. -/
theorem dark_invariant_witness :
    storeGet failState.localStore "dark" = none ∧ (bootstrapDark failState).bodyDark = false :=
  ⟨rfl, (dark_invariant demoCodec failState).2.1 rfl⟩

/-- C10: for each stored type (mode, string, boolean), a `load` after a
`store` to the same key — with no intervening store to that key — reads
back the same value: the JSON encoding round-trips, and a store to a
different key leaves the read unchanged. -/
theorem store_load_roundtrip (st : List (String × String)) (k : String) :
    (∀ m, loadMode (storeSet st k (encodeModeJson m)) k = some m) ∧
    (∀ v, loadString (storeSet st k (encodeJsonString v)) k = some v) ∧
    (∀ b, loadBool (storeSet st k (encodeBoolJson b)) k = some b) ∧
    (∀ k2 w, k2 ≠ k → storeGet (storeSet st k2 w) k = storeGet st k) := by
  have hget : ∀ x, storeGet (storeSet st k x) k = some x := by
    intro x
    rw [storeSet, storeGet, if_pos rfl]
  refine ⟨?_, ?_, ?_, ?_⟩
  · intro m
    rw [loadMode, hget]
    simp only [Option.some_bind]
    cases m <;> decide
  · intro v
    rw [loadString, hget]
    simp only [Option.some_bind]
    exact fromJson_encodeJson v
  · intro b
    rw [loadBool, hget]
    simp only [Option.some_bind]
    cases b <;> decide
  · intro k2 w h
    rw [storeSet, storeGet, if_neg h]

/-- C10 witness: round trips at concrete keys and values, including a
string needing escapes, and an unrelated-key store. -/
theorem store_load_roundtrip_witness :
    loadMode (storeSet [] "type" (encodeModeJson ParseType.diag)) "type"
      = some ParseType.diag ∧
    loadString (storeSet [] "value" (encodeJsonString "a\"b\\c")) "value" = some "a\"b\\c" ∧
    loadBool (storeSet [] "dark" (encodeBoolJson true)) "dark" = some true ∧
    storeGet (storeSet [("dark", "true")] "value" "x") "dark"
      = storeGet [("dark", "true")] "dark" :=
  ⟨(store_load_roundtrip [] "type").1 ParseType.diag,
   (store_load_roundtrip [] "value").2.1 "a\"b\\c",
   (store_load_roundtrip [] "dark").2.2.1 true,
   (store_load_roundtrip [("dark", "true")] "dark").2.2.2 "value" "x" (by decide)⟩

end CborPlay
